import Mathlib

/-!
Verification of the construction-materials tracker (src/app.py).

The two persisted logs (purchases in construction_materials.csv, usage
events in material_usage.csv) are modelled as Lean lists of records.
Numeric CSV fields (quantities, costs) are modelled as rationals, dates
as integers (e.g. 20240105), and the positional Material_ID as an
integer.  Each operation of the app is translated into a pure function
on these lists; route handlers that only render templates are out of
scope, only their log-reading/log-writing logic is embedded.
-/

/-- One row of construction_materials.csv (header written by
initialize_data, src/app.py lines 24-28).  The purchase id is not a
field: it is the row's current position in the log. -/
structure PurchaseRecord where
  date : Int
  siteName : String
  materialType : String
  materialName : String
  quantity : Rat
  unit : String
  unitCost : Rat
  totalCost : Rat
  supplier : String
  notes : String
deriving DecidableEq, Inhabited

/-- One row of material_usage.csv (src/app.py lines 33-36).
materialId is the stored Material_ID foreign key, an integer that is
supposed to be the current position of the owning purchase. -/
structure UsageRecord where
  usageDate : Int
  materialId : Int
  siteName : String
  materialName : String
  usedQuantity : Rat
  unit : String
  usagePurpose : String
  usedBy : String
  notes : String
deriving DecidableEq, Inhabited

/-- One element of the list built by calculate_remaining_materials
(src/app.py lines 82-98). -/
structure RemainingRow where
  materialId : Int
  date : Int
  siteName : String
  materialType : String
  materialName : String
  originalQuantity : Rat
  usedQuantity : Rat
  remainingQuantity : Rat
  unit : String
  usagePercentage : Rat
  remainingPercentage : Rat
  unitCost : Rat
  remainingValue : Rat
  supplier : String
  status : String
deriving DecidableEq, Inhabited

/-- One annotated record built by usage_history (src/app.py lines
453-462). -/
structure HistoryRow where
  usageDate : Int
  usedQuantity : Rat
  unit : String
  usagePurpose : String
  usedBy : String
  notes : String
  cumulativeUsed : Rat
  remainingAfter : Rat
deriving DecidableEq, Inhabited

/-- Sum of Used_Quantity over the usage records whose Material_ID equals
mid: the pandas selection and sum of src/app.py lines 75-76
(an empty selection sums to 0, matching the explicit 0 fallback). -/
def totalUsed (usages : List UsageRecord) (mid : Int) : Rat :=
  ((usages.filter (fun u => u.materialId == mid)).map (fun u => u.usedQuantity)).sum

/-- The dictionary appended for one material by
calculate_remaining_materials (src/app.py lines 71-98). -/
def remainingRow (usages : List UsageRecord) (mid : Int)
    (material : PurchaseRecord) : RemainingRow :=
  let total_used := totalUsed usages mid
  let remaining_quantity := material.quantity - total_used
  let usage_percentage :=
    if material.quantity > 0 then total_used / material.quantity * 100 else 0
  { materialId := mid
    date := material.date
    siteName := material.siteName
    materialType := material.materialType
    materialName := material.materialName
    originalQuantity := material.quantity
    usedQuantity := total_used
    remainingQuantity := remaining_quantity
    unit := material.unit
    usagePercentage := usage_percentage
    remainingPercentage := 100 - usage_percentage
    unitCost := material.unitCost
    remainingValue := remaining_quantity * material.unitCost
    supplier := material.supplier
    status := if remaining_quantity ≤ 0 then "Depleted" else "Available" }

/-- calculate_remaining_materials (src/app.py lines 56-100): one
RemainingRow per purchase, iterated in log order, Material_ID = the
row's index (materials_df.reset_index()). -/
def calculate_remaining_materials (materials : List PurchaseRecord)
    (usages : List UsageRecord) : List RemainingRow :=
  materials.enum.map (fun p => remainingRow usages (p.1 : Int) p.2)

/-- add_material, POST branch (src/app.py lines 213-232): builds the
record from the already-parsed form fields, with
Total_Cost = quantity * unit_cost, and appends it at the end of the
purchase log.  The numeric fields arrive already parsed (float(...) in
the handler); no further validation is performed. -/
def add_material (materials : List PurchaseRecord) (date : Int)
    (site_name material_type material_name : String) (quantity : Rat)
    (unit : String) (unit_cost : Rat) (supplier notes : String) :
    List PurchaseRecord :=
  materials ++ [{ date := date
                  siteName := site_name
                  materialType := material_type
                  materialName := material_name
                  quantity := quantity
                  unit := unit
                  unitCost := unit_cost
                  totalCost := quantity * unit_cost
                  supplier := supplier
                  notes := notes }]

/-- Outcome of the add_usage handler, distinguishing the silent
redirect (src/app.py line 390), a NotFoundError surfaced with a
message (no code path produces one in add_usage), the rendered
validation error (lines 404-407), the successful append followed by a
redirect (lines 410-427), and the IndexError that .iloc[0] would raise
on an empty selection (line 398). -/
inductive UsageOutcome where
  | redirect : UsageOutcome
  | notFound : String → UsageOutcome
  | validationError : String → UsageOutcome
  | rendered : UsageOutcome
  | indexError : UsageOutcome
deriving DecidableEq

/-- True exactly on the notFound outcome. -/
def UsageOutcome.isNotFound : UsageOutcome → Bool
  | UsageOutcome.notFound _ => true
  | _ => false

/-- add_usage, POST branch (src/app.py lines 384-427).  material_id is
a Nat because the <int:material_id> route converter only matches
non-negative integers.  Returns the outcome and the resulting usage
log (unchanged except on the successful append). -/
def add_usage (materials : List PurchaseRecord) (usages : List UsageRecord)
    (material_id : Nat) (usage_date : Int) (used_quantity : Rat)
    (usage_purpose used_by notes : String) : UsageOutcome × List UsageRecord :=
  if h : material_id < materials.length then
    let material := materials.get ⟨material_id, h⟩
    let sel := (calculate_remaining_materials materials usages).filter
        (fun r => r.materialId == (material_id : Int))
    if hsel : sel = [] then (UsageOutcome.indexError, usages)
    else
      let material_remaining := sel.head hsel
      if used_quantity > material_remaining.remainingQuantity then
        (UsageOutcome.validationError
          ("Cannot use " ++ toString used_quantity ++ " " ++ material.unit ++
            ". Only " ++ toString material_remaining.remainingQuantity ++ " " ++
            material.unit ++ " remaining."), usages)
      else
        (UsageOutcome.rendered,
          usages ++ [{ usageDate := usage_date
                       materialId := (material_id : Int)
                       siteName := material.siteName
                       materialName := material.materialName
                       usedQuantity := used_quantity
                       unit := material.unit
                       usagePurpose := usage_purpose
                       usedBy := used_by
                       notes := notes }])
  else (UsageOutcome.redirect, usages)

/-- Outcome of the usage_history handler: the silent redirect
(src/app.py line 440), a NotFoundError surfaced with a message (no
code path produces one), or the rendered page with its annotated
records. -/
inductive HistoryResult where
  | redirect : HistoryResult
  | notFound : String → HistoryResult
  | page : List HistoryRow → HistoryResult
deriving DecidableEq

/-- True exactly on the notFound outcome. -/
def HistoryResult.isNotFound : HistoryResult → Bool
  | HistoryResult.notFound _ => true
  | _ => false

/-- Insert a record into a list already sorted by Usage_Date
descending, keeping the list sorted descending and placing the new
record before later-inserted records with the same date. -/
def insertByDateDesc (u : UsageRecord) : List UsageRecord → List UsageRecord
  | [] => [u]
  | v :: rest =>
    if u.usageDate < v.usageDate then v :: insertByDateDesc u rest
    else u :: v :: rest

/-- Model of sort_values with ascending=False on Usage_Date
(src/app.py line 443): a sort by Usage_Date descending. -/
def sortByDateDesc : List UsageRecord → List UsageRecord
  | [] => []
  | u :: rest => insertByDateDesc u (sortByDateDesc rest)

/-- The running-totals loop of usage_history (src/app.py lines
446-462): walks the records in the order produced by the descending
sort, accumulating cumulative_used and Remaining_After. -/
def runningTotals (original : Rat) (cumulative_used : Rat) :
    List UsageRecord → List HistoryRow
  | [] => []
  | u :: rest =>
    let cum := cumulative_used + u.usedQuantity
    { usageDate := u.usageDate
      usedQuantity := u.usedQuantity
      unit := u.unit
      usagePurpose := u.usagePurpose
      usedBy := u.usedBy
      notes := u.notes
      cumulativeUsed := cum
      remainingAfter := original - cum } :: runningTotals original cum rest

/-- usage_history (src/app.py lines 433-467): out-of-range ids
redirect silently; otherwise the matching usage records are sorted by
Usage_Date descending, annotated with running totals in that order,
and the annotated list is reversed before rendering. -/
def usage_history (materials : List PurchaseRecord)
    (usages : List UsageRecord) (material_id : Nat) : HistoryResult :=
  if h : material_id < materials.length then
    let material := materials.get ⟨material_id, h⟩
    let material_usage :=
      sortByDateDesc (usages.filter (fun u => u.materialId == (material_id : Int)))
    let usage_records := runningTotals material.quantity 0 material_usage
    HistoryResult.page usage_records.reverse
  else HistoryResult.redirect

/-- The usage-log rewrite performed by delete_entry (src/app.py lines
484-486): drop the rows whose Material_ID equals the deleted id, then
decrement Material_ID on the rows where it is greater. -/
def renumberUsage (usages : List UsageRecord) (entry_id : Nat) :
    List UsageRecord :=
  (usages.filter (fun u => !(u.materialId == (entry_id : Int)))).map
    (fun u => if u.materialId > (entry_id : Int) then
        { u with materialId := u.materialId - 1 } else u)

/-- JSON outcome of delete_entry: success message, or the 404
not-found message. -/
inductive DeleteResult where
  | success : String → DeleteResult
  | failure : String → DeleteResult
deriving DecidableEq

/-- delete_entry (src/app.py lines 469-498): for an in-range id, drop
the purchase row (positions after it shift down), rewrite the usage
log with renumberUsage, and report success; otherwise report the 404
message and leave both logs unchanged. -/
def delete_entry (materials : List PurchaseRecord)
    (usages : List UsageRecord) (entry_id : Nat) :
    DeleteResult × List PurchaseRecord × List UsageRecord :=
  if h : entry_id < materials.length then
    let deleted_material := materials.get ⟨entry_id, h⟩
    (DeleteResult.success
      ("Successfully deleted " ++ deleted_material.materialName ++
        " and its usage records"),
      materials.eraseIdx entry_id,
      renumberUsage usages entry_id)
  else (DeleteResult.failure "Entry not found", materials, usages)

/-! ### Basic projection and unfolding lemmas -/

/-- Material_ID of a computed row is the id it was computed for. -/
theorem remainingRow_materialId (U : List UsageRecord) (mid : Int)
    (m : PurchaseRecord) : (remainingRow U mid m).materialId = mid := rfl

/-- Used_Quantity of a computed row is the matching-usage sum. -/
theorem remainingRow_usedQuantity (U : List UsageRecord) (mid : Int)
    (m : PurchaseRecord) : (remainingRow U mid m).usedQuantity = totalUsed U mid := rfl

/-- Remaining_Quantity of a computed row. -/
theorem remainingRow_remainingQuantity (U : List UsageRecord) (mid : Int)
    (m : PurchaseRecord) :
    (remainingRow U mid m).remainingQuantity = m.quantity - totalUsed U mid := rfl

/-- Updating materialId changes exactly that field. -/
theorem update_materialId (u : UsageRecord) (x : Int) :
    ({ u with materialId := x } : UsageRecord).materialId = x := rfl

/-- Updating materialId leaves usedQuantity unchanged. -/
theorem update_usedQuantity (u : UsageRecord) (x : Int) :
    ({ u with materialId := x } : UsageRecord).usedQuantity = u.usedQuantity := rfl

/-- calculate_remaining_materials yields one row per purchase. -/
theorem calculate_length (M : List PurchaseRecord) (U : List UsageRecord) :
    (calculate_remaining_materials M U).length = M.length := by
  simp [calculate_remaining_materials]

/-- The row at position i of calculate_remaining_materials is the row
computed for the purchase at position i with Material_ID i. -/
theorem calculate_getD (M : List PurchaseRecord) (U : List UsageRecord)
    (i : Nat) (h : i < M.length) (d : RemainingRow) (dp : PurchaseRecord) :
    (calculate_remaining_materials M U).getD i d =
      remainingRow U (i : Int) (M.getD i dp) := by
  have h2 : i < (calculate_remaining_materials M U).length := by
    rw [calculate_length]; exact h
  rw [List.getD_eq_getElem _ _ h2, List.getD_eq_getElem _ _ h]
  simp [calculate_remaining_materials]

/-! ### The filtered remaining-row selection of add_usage -/

/-- Rows of enumFrom carry indices at least its start, so filtering for
a smaller index selects nothing. -/
theorem enumFrom_filter_nil (mid n : Nat) (l : List PurchaseRecord)
    (h : mid < n) :
    (List.enumFrom n l).filter (fun p => ((p.1 : Int) == (mid : Int))) = [] := by
  induction l generalizing n with
  | nil => rfl
  | cons x xs ih =>
    rw [List.enumFrom_cons, List.filter_cons]
    have hc : ((n : Int) == (mid : Int)) = false := by
      simp only [beq_eq_false_iff_ne, ne_eq, Nat.cast_inj]
      omega
    simp only [hc, Bool.false_eq_true, if_false]
    exact ih (n + 1) (by omega)

/-- Filtering enumFrom for an in-range index selects exactly that
entry. -/
theorem enumFrom_filter_singleton (mid n : Nat) (l : List PurchaseRecord)
    (h1 : n ≤ mid) (h2 : mid - n < l.length) (dp : PurchaseRecord) :
    (List.enumFrom n l).filter (fun p => ((p.1 : Int) == (mid : Int))) =
      [(mid, l.getD (mid - n) dp)] := by
  induction l generalizing n with
  | nil => simp at h2
  | cons x xs ih =>
    rw [List.enumFrom_cons, List.filter_cons]
    by_cases hn : n = mid
    · subst hn
      have hc : ((n : Int) == (n : Int)) = true := by simp
      simp only [hc, if_true]
      rw [enumFrom_filter_nil n (n + 1) xs (by omega)]
      simp
    · have hc : ((n : Int) == (mid : Int)) = false := by
        simp only [beq_eq_false_iff_ne, ne_eq, Nat.cast_inj]
        omega
      simp only [hc, Bool.false_eq_true, if_false]
      rw [ih (n + 1) (by omega) (by simp only [List.length_cons] at h2; omega)]
      have hmn : mid - n = (mid - (n + 1)) + 1 := by omega
      rw [hmn, List.getD_cons_succ]

/-- The pandas selection remaining_df[remaining_df[Material_ID] == material_id]
of src/app.py line 398 is, for an in-range id, exactly the one row
computed for that id. -/
theorem calculate_filter_eq (M : List PurchaseRecord) (U : List UsageRecord)
    (mid : Nat) (h : mid < M.length) (dp : PurchaseRecord) :
    (calculate_remaining_materials M U).filter
        (fun r => r.materialId == (mid : Int)) =
      [remainingRow U (mid : Int) (M.getD mid dp)] := by
  unfold calculate_remaining_materials
  rw [List.filter_map]
  have hpred : ((fun (r : RemainingRow) => r.materialId == ((mid : Nat) : Int)) ∘
      (fun (p : Nat × PurchaseRecord) => remainingRow U (p.1 : Int) p.2)) =
        (fun (p : Nat × PurchaseRecord) => ((p.1 : Int) == (mid : Int))) := by
    funext p; rfl
  rw [hpred]
  have henum : (M.enum : List (Nat × PurchaseRecord)) = List.enumFrom 0 M := rfl
  rw [henum, enumFrom_filter_singleton mid 0 M (by omega) (by simpa using h) dp]
  simp

/-! ### Sum lemmas for totalUsed -/

/-- totalUsed over the empty log is 0. -/
theorem totalUsed_nil (mid : Int) : totalUsed [] mid = 0 := rfl

/-- totalUsed over a cons adds the head's quantity exactly when the
head's Material_ID matches. -/
theorem totalUsed_cons (u : UsageRecord) (U : List UsageRecord) (mid : Int) :
    totalUsed (u :: U) mid =
      (if u.materialId = mid then u.usedQuantity else 0) + totalUsed U mid := by
  by_cases h : u.materialId = mid
  · simp [totalUsed, List.filter_cons, h]
  · simp [totalUsed, List.filter_cons, h]

/-- totalUsed distributes over appended logs. -/
theorem totalUsed_append (U1 U2 : List UsageRecord) (mid : Int) :
    totalUsed (U1 ++ U2) mid = totalUsed U1 mid + totalUsed U2 mid := by
  simp [totalUsed, List.filter_append]

/-! ### The renumbering rewrite of delete_entry -/

/-- renumberUsage of the empty log. -/
theorem renumberUsage_nil (k : Nat) : renumberUsage [] k = [] := rfl

/-- Step form of renumberUsage: drop a matching head, shift a greater
head, keep a smaller head. -/
theorem renumberUsage_cons (u : UsageRecord) (U : List UsageRecord) (k : Nat) :
    renumberUsage (u :: U) k =
      if u.materialId = (k : Int) then renumberUsage U k
      else (if u.materialId > (k : Int) then
              { u with materialId := u.materialId - 1 } else u) :: renumberUsage U k := by
  by_cases h : u.materialId = (k : Int)
  · simp [renumberUsage, List.filter_cons, h]
  · simp [renumberUsage, List.filter_cons, h]

/-- After deleting purchase k, the usage sum seen at position j equals
the original usage sum at the position that j occupied before the
deletion (j itself below k, j+1 at or above it). -/
theorem totalUsed_renumber (U : List UsageRecord) (k j : Nat) :
    totalUsed (renumberUsage U k) (j : Int) =
      totalUsed U (((if j < k then j else j + 1 : Nat) : Int)) := by
  rcases Nat.lt_or_ge j k with hj | hj
  · rw [if_pos hj]
    induction U with
    | nil => rw [renumberUsage_nil]
    | cons u rest ih =>
      rw [renumberUsage_cons]
      by_cases h1 : u.materialId = (k : Int)
      · rw [if_pos h1, ih, totalUsed_cons, if_neg (by omega), zero_add]
      · rw [if_neg h1]
        by_cases h2 : u.materialId > (k : Int)
        · rw [if_pos h2, totalUsed_cons, totalUsed_cons, ih]
          simp only [update_materialId, update_usedQuantity]
          rw [if_neg (by omega), if_neg (by omega)]
        · rw [if_neg h2, totalUsed_cons, totalUsed_cons, ih]
  · rw [if_neg (by omega)]
    induction U with
    | nil => rw [renumberUsage_nil, totalUsed_nil, totalUsed_nil]
    | cons u rest ih =>
      rw [renumberUsage_cons]
      by_cases h1 : u.materialId = (k : Int)
      · rw [if_pos h1, ih, totalUsed_cons, if_neg (by omega), zero_add]
      · rw [if_neg h1]
        by_cases h2 : u.materialId > (k : Int)
        · rw [if_pos h2, totalUsed_cons, totalUsed_cons, ih]
          simp only [update_materialId, update_usedQuantity]
          by_cases h3 : u.materialId = ((j + 1 : Nat) : Int)
          · rw [if_pos (by omega), if_pos h3]
          · rw [if_neg (by omega), if_neg h3]
        · rw [if_neg h2, totalUsed_cons, totalUsed_cons, ih]
          rw [if_neg (by omega), if_neg (by omega)]

/-- Reading position j after the deletion of position k reads what was
at position j (below k) or j+1 (at or above k). -/
theorem eraseIdx_getD (M : List PurchaseRecord) (k j : Nat) (hk : k < M.length)
    (hj : j + 1 < M.length) (dp : PurchaseRecord) :
    (M.eraseIdx k).getD j dp = M.getD ((if j < k then j else j + 1)) dp := by
  have hlen : (M.eraseIdx k).length = M.length - 1 := by
    rw [List.length_eraseIdx]; simp [hk]
  have hj2 : j < (M.eraseIdx k).length := by omega
  rw [List.getD_eq_getElem _ _ hj2]
  by_cases h : j < k
  · rw [if_pos h, List.getD_eq_getElem _ _ (by omega), List.getElem_eraseIdx]
    simp [h]
  · rw [if_neg h, List.getD_eq_getElem _ _ (by omega), List.getElem_eraseIdx]
    simp [h]

/-! ### Concrete records for the closed witnesses -/

/-- Sample purchase record (the spec scenario: quantity 100 at unit
cost 10). -/
def samplePurchase : PurchaseRecord :=
  { date := 20240101, siteName := "Site A", materialType := "Cement",
    materialName := "OPC 43", quantity := 100, unit := "bags",
    unitCost := 10, totalCost := 1000, supplier := "ACME", notes := "" }

/-- Sample usage record with a chosen Material_ID, date and quantity. -/
def sampleUsage (mid : Int) (d : Int) (q : Rat) : UsageRecord :=
  { usageDate := d, materialId := mid, siteName := "Site A",
    materialName := "OPC 43", usedQuantity := q, unit := "bags",
    usagePurpose := "slab", usedBy := "crew", notes := "" }

/-- C1: calculate_remaining_materials produces one row per purchase
record, and the row at every in-range position i has Used_Quantity
equal to the sum of Used_Quantity over the usage records whose
Material_ID equals i, Remaining_Quantity equal to the purchase's
original quantity minus that sum, and Remaining_Value equal to
Remaining_Quantity times the purchase's Unit_Cost. -/
theorem C1_remaining_rows (M : List PurchaseRecord) (U : List UsageRecord)
    (i : Nat) (h : i < M.length) :
    (calculate_remaining_materials M U).length = M.length ∧
    ((calculate_remaining_materials M U).getD i default).usedQuantity =
      ((U.filter (fun u => u.materialId == (i : Int))).map
        (fun u => u.usedQuantity)).sum ∧
    ((calculate_remaining_materials M U).getD i default).remainingQuantity =
      (M.getD i default).quantity -
        ((U.filter (fun u => u.materialId == (i : Int))).map
          (fun u => u.usedQuantity)).sum ∧
    ((calculate_remaining_materials M U).getD i default).remainingValue =
      ((calculate_remaining_materials M U).getD i default).remainingQuantity *
        (M.getD i default).unitCost := by
  rw [calculate_getD M U i h default default]
  exact ⟨calculate_length M U, rfl, rfl, rfl⟩

/-- Witness for C1 at the spec scenario: one purchase of 100 bags,
one usage of 30 against id 0. -/
theorem C1_witness :
    0 < ([samplePurchase] : List PurchaseRecord).length ∧
    ((calculate_remaining_materials [samplePurchase] [sampleUsage 0 20240102 30]).length =
        ([samplePurchase] : List PurchaseRecord).length ∧
     ((calculate_remaining_materials [samplePurchase] [sampleUsage 0 20240102 30]).getD 0 default).usedQuantity =
       ((([sampleUsage 0 20240102 30] : List UsageRecord).filter
           (fun u => u.materialId == ((0 : Nat) : Int))).map
         (fun u => u.usedQuantity)).sum ∧
     ((calculate_remaining_materials [samplePurchase] [sampleUsage 0 20240102 30]).getD 0 default).remainingQuantity =
       (([samplePurchase] : List PurchaseRecord).getD 0 default).quantity -
         ((([sampleUsage 0 20240102 30] : List UsageRecord).filter
             (fun u => u.materialId == ((0 : Nat) : Int))).map
           (fun u => u.usedQuantity)).sum ∧
     ((calculate_remaining_materials [samplePurchase] [sampleUsage 0 20240102 30]).getD 0 default).remainingValue =
       ((calculate_remaining_materials [samplePurchase] [sampleUsage 0 20240102 30]).getD 0 default).remainingQuantity *
         (([samplePurchase] : List PurchaseRecord).getD 0 default).unitCost) :=
  ⟨by decide, C1_remaining_rows [samplePurchase] [sampleUsage 0 20240102 30] 0 (by decide)⟩

/-- C7: for a purchase whose original quantity is at most 0, the
computed Usage_Percentage is 0 (no division is attempted), and on
every row Remaining_Percentage is 100 minus Usage_Percentage; the
computation is a total function. -/
theorem C7_percentage_guard (M : List PurchaseRecord) (U : List UsageRecord)
    (i : Nat) (h : i < M.length) :
    ((M.getD i default).quantity ≤ 0 →
      ((calculate_remaining_materials M U).getD i default).usagePercentage = 0) ∧
    ((calculate_remaining_materials M U).getD i default).remainingPercentage =
      100 - ((calculate_remaining_materials M U).getD i default).usagePercentage := by
  rw [calculate_getD M U i h default default]
  constructor
  · intro hq
    show (if (M.getD i default).quantity > 0 then
        totalUsed U (i : Int) / (M.getD i default).quantity * 100 else 0) = 0
    rw [if_neg (not_lt.mpr hq)]
  · rfl

/-- Witness for C7: one purchase whose quantity is 0 gets
Usage_Percentage 0 and Remaining_Percentage 100 minus it. -/
theorem C7_witness :
    0 < ([{ samplePurchase with quantity := 0 }] : List PurchaseRecord).length ∧
    (([{ samplePurchase with quantity := 0 }] : List PurchaseRecord).getD 0 default).quantity ≤ 0 ∧
    ((calculate_remaining_materials [{ samplePurchase with quantity := 0 }] []).getD 0 default).usagePercentage = 0 ∧
    ((calculate_remaining_materials [{ samplePurchase with quantity := 0 }] []).getD 0 default).remainingPercentage =
      100 - ((calculate_remaining_materials [{ samplePurchase with quantity := 0 }] []).getD 0 default).usagePercentage :=
  ⟨by decide, by decide,
   (C7_percentage_guard [{ samplePurchase with quantity := 0 }] [] 0 (by decide)).1 (by decide),
   (C7_percentage_guard [{ samplePurchase with quantity := 0 }] [] 0 (by decide)).2⟩

/-- For an in-range material_id the selection of src/app.py line 398
is exactly the one row for that id, so add_usage reduces to the
remaining-quantity check followed by the append. -/
theorem add_usage_in_range (M : List PurchaseRecord) (U : List UsageRecord)
    (material_id : Nat) (usage_date : Int) (used_quantity : Rat)
    (usage_purpose used_by notes : String) (h : material_id < M.length) :
    add_usage M U material_id usage_date used_quantity usage_purpose used_by notes =
      (if used_quantity > (M.getD material_id default).quantity - totalUsed U (material_id : Int) then
        (UsageOutcome.validationError
          ("Cannot use " ++ toString used_quantity ++ " " ++ (M.getD material_id default).unit ++
            ". Only " ++ toString ((M.getD material_id default).quantity - totalUsed U (material_id : Int)) ++ " " ++
            (M.getD material_id default).unit ++ " remaining."), U)
      else
        (UsageOutcome.rendered,
          U ++ [{ usageDate := usage_date
                  materialId := (material_id : Int)
                  siteName := (M.getD material_id default).siteName
                  materialName := (M.getD material_id default).materialName
                  usedQuantity := used_quantity
                  unit := (M.getD material_id default).unit
                  usagePurpose := usage_purpose
                  usedBy := used_by
                  notes := notes }])) := by
  have hget : M.get ⟨material_id, h⟩ = M.getD material_id default := by
    rw [List.get_eq_getElem, List.getD_eq_getElem _ _ h]
  simp only [add_usage]
  rw [dif_pos h, calculate_filter_eq M U material_id h default]
  rw [dif_neg (by simp :
    ¬([remainingRow U (material_id : Int) (M.getD material_id default)] = ([] : List RemainingRow)))]
  rw [List.head_cons, hget]
  rfl

/-- C4: add_usage with used_quantity exceeding the current remaining
quantity fails with a ValidationError message and leaves the usage log
unchanged (same length, same content); with used_quantity not
exceeding it, the record is appended at the end with Material_ID as
given. -/
theorem C4_add_usage_validation (M : List PurchaseRecord) (U : List UsageRecord)
    (material_id : Nat) (usage_date : Int) (used_quantity : Rat)
    (usage_purpose used_by notes : String) (h : material_id < M.length) :
    (used_quantity > (M.getD material_id default).quantity - totalUsed U (material_id : Int) →
      (∃ msg, (add_usage M U material_id usage_date used_quantity usage_purpose used_by notes).1 =
          UsageOutcome.validationError msg) ∧
      (add_usage M U material_id usage_date used_quantity usage_purpose used_by notes).2 = U) ∧
    (used_quantity ≤ (M.getD material_id default).quantity - totalUsed U (material_id : Int) →
      (add_usage M U material_id usage_date used_quantity usage_purpose used_by notes).1 =
        UsageOutcome.rendered ∧
      (add_usage M U material_id usage_date used_quantity usage_purpose used_by notes).2 =
        U ++ [{ usageDate := usage_date
                materialId := (material_id : Int)
                siteName := (M.getD material_id default).siteName
                materialName := (M.getD material_id default).materialName
                usedQuantity := used_quantity
                unit := (M.getD material_id default).unit
                usagePurpose := usage_purpose
                usedBy := used_by
                notes := notes }]) := by
  rw [add_usage_in_range M U material_id usage_date used_quantity usage_purpose used_by notes h]
  constructor
  · intro hgt
    rw [if_pos hgt]
    exact ⟨⟨_, rfl⟩, rfl⟩
  · intro hle
    rw [if_neg (not_lt.mpr hle)]
    exact ⟨rfl, rfl⟩

/-- Witness for C4: one purchase of 100 bags, empty usage log, a
request for 30 (not exceeding the remaining 100) is appended at the
end with Material_ID 0. -/
theorem C4_witness :
    0 < ([samplePurchase] : List PurchaseRecord).length ∧
    (30 : Rat) ≤ (([samplePurchase] : List PurchaseRecord).getD 0 default).quantity - totalUsed [] ((0 : Nat) : Int) ∧
    (add_usage [samplePurchase] [] 0 20240102 30 "slab" "crew" "").1 = UsageOutcome.rendered ∧
    (add_usage [samplePurchase] [] 0 20240102 30 "slab" "crew" "").2 =
      [] ++ [{ usageDate := 20240102
               materialId := ((0 : Nat) : Int)
               siteName := (([samplePurchase] : List PurchaseRecord).getD 0 default).siteName
               materialName := (([samplePurchase] : List PurchaseRecord).getD 0 default).materialName
               usedQuantity := (30 : Rat)
               unit := (([samplePurchase] : List PurchaseRecord).getD 0 default).unit
               usagePurpose := "slab"
               usedBy := "crew"
               notes := "" }] :=
  ⟨by decide, by norm_num [samplePurchase, totalUsed],
   ((C4_add_usage_validation [samplePurchase] [] 0 20240102 30 "slab" "crew" "" (by decide)).2
     (by norm_num [samplePurchase, totalUsed])).1,
   ((C4_add_usage_validation [samplePurchase] [] 0 20240102 30 "slab" "crew" "" (by decide)).2
     (by norm_num [samplePurchase, totalUsed])).2⟩

/-- C9 (amended): for a material_id at or beyond the purchase-log
length, add_usage and usage_history abort with a bare redirect: no
NotFoundError, no message, and the usage log unchanged. -/
theorem C9_out_of_range_redirects (M : List PurchaseRecord) (U : List UsageRecord)
    (material_id : Nat) (usage_date : Int) (used_quantity : Rat)
    (usage_purpose used_by notes : String) (h : M.length ≤ material_id) :
    add_usage M U material_id usage_date used_quantity usage_purpose used_by notes =
      (UsageOutcome.redirect, U) ∧
    (add_usage M U material_id usage_date used_quantity usage_purpose used_by notes).1.isNotFound = false ∧
    usage_history M U material_id = HistoryResult.redirect ∧
    (usage_history M U material_id).isNotFound = false := by
  have h1 : ¬ material_id < M.length := by omega
  have e1 : add_usage M U material_id usage_date used_quantity usage_purpose used_by notes =
      (UsageOutcome.redirect, U) := by
    simp only [add_usage]; rw [dif_neg h1]
  have e2 : usage_history M U material_id = HistoryResult.redirect := by
    simp only [usage_history]; rw [dif_neg h1]
  exact ⟨e1, by rw [e1]; rfl, e2, by rw [e2]; rfl⟩

/-- Witness for C9 (amended): empty purchase log, id 0. -/
theorem C9_witness :
    ([] : List PurchaseRecord).length ≤ 0 ∧
    (add_usage [] [] 0 20240102 5 "slab" "crew" "" = (UsageOutcome.redirect, []) ∧
     (add_usage [] [] 0 20240102 5 "slab" "crew" "").1.isNotFound = false ∧
     usage_history [] [] 0 = HistoryResult.redirect ∧
     (usage_history [] [] 0).isNotFound = false) :=
  ⟨by decide, C9_out_of_range_redirects [] [] 0 20240102 5 "slab" "crew" "" (by decide)⟩

/-- C9 counterexample: with an empty purchase log, id 0 is out of
range, yet add_usage and usage_history return the bare redirect rather
than any NotFoundError carrying a message. -/
theorem C9_counterexample :
    (add_usage [] [] 0 20240102 5 "slab" "crew" "").1 = UsageOutcome.redirect ∧
    (add_usage [] [] 0 20240102 5 "slab" "crew" "").1.isNotFound = false ∧
    usage_history [] [] 0 = HistoryResult.redirect ∧
    (usage_history [] [] 0).isNotFound = false :=
  ⟨rfl, rfl, rfl, rfl⟩

/-- C5 (amended): add_material always appends: it computes Total_Cost
as quantity times unit_cost and places the new record at the end,
leaving earlier records unchanged; no sign validation is applied to
quantity or unit_cost beyond the numeric parse done by the caller. -/
theorem C5_add_material_appends (M : List PurchaseRecord) (date : Int)
    (site_name material_type material_name : String) (quantity : Rat)
    (unit : String) (unit_cost : Rat) (supplier notes : String) :
    (add_material M date site_name material_type material_name quantity unit unit_cost supplier notes).length =
      M.length + 1 ∧
    (add_material M date site_name material_type material_name quantity unit unit_cost supplier notes).getD M.length default =
      { date := date, siteName := site_name, materialType := material_type,
        materialName := material_name, quantity := quantity, unit := unit,
        unitCost := unit_cost, totalCost := quantity * unit_cost,
        supplier := supplier, notes := notes } ∧
    ∀ j, j < M.length →
      (add_material M date site_name material_type material_name quantity unit unit_cost supplier notes).getD j default =
        M.getD j default := by
  refine ⟨by simp [add_material], ?_, ?_⟩
  · rw [add_material, List.getD_eq_getElem _ _ (by simp)]
    rw [List.getElem_append_right (by omega)]
    simp
  · intro j hj
    rw [add_material, List.getD_eq_getElem _ _ (by simp; omega),
      List.getD_eq_getElem _ _ hj]
    rw [List.getElem_append_left hj]

/-- C5 counterexample: add_material accepts a parsed quantity of -5
and appends it; the appended record violates quantity > 0, so no
sign validation takes place. -/
theorem C5_counterexample :
    (add_material [] 20240101 "Site A" "Cement" "OPC 43" (-5) "bags" 10 "ACME" "").length = 1 ∧
    ((add_material [] 20240101 "Site A" "Cement" "OPC 43" (-5) "bags" 10 "ACME" "").getD 0 default).quantity = -5 ∧
    ¬ (0 < ((add_material [] 20240101 "Site A" "Cement" "OPC 43" (-5) "bags" 10 "ACME" "").getD 0 default).quantity) :=
  ⟨rfl, rfl, by decide⟩

/-- Witness for C5 (amended): appending to a one-record log places the
new record at position 1 with Total_Cost 20 times 50 and leaves
position 0 unchanged. -/
theorem C5_witness :
    (add_material [samplePurchase] 20240102 "Site B" "Steel" "Rebar" 20 "tons" 50 "MetalCo" "").length =
      ([samplePurchase] : List PurchaseRecord).length + 1 ∧
    (add_material [samplePurchase] 20240102 "Site B" "Steel" "Rebar" 20 "tons" 50 "MetalCo" "").getD
        ([samplePurchase] : List PurchaseRecord).length default =
      { date := 20240102, siteName := "Site B", materialType := "Steel",
        materialName := "Rebar", quantity := 20, unit := "tons",
        unitCost := 50, totalCost := 20 * 50, supplier := "MetalCo", notes := "" } ∧
    (0 : Nat) < ([samplePurchase] : List PurchaseRecord).length ∧
    (add_material [samplePurchase] 20240102 "Site B" "Steel" "Rebar" 20 "tons" 50 "MetalCo" "").getD 0 default =
      ([samplePurchase] : List PurchaseRecord).getD 0 default :=
  ⟨(C5_add_material_appends [samplePurchase] 20240102 "Site B" "Steel" "Rebar" 20 "tons" 50 "MetalCo" "").1,
   (C5_add_material_appends [samplePurchase] 20240102 "Site B" "Steel" "Rebar" 20 "tons" 50 "MetalCo" "").2.1,
   by decide,
   (C5_add_material_appends [samplePurchase] 20240102 "Site B" "Steel" "Rebar" 20 "tons" 50 "MetalCo" "").2.2 0 (by decide)⟩

/-- Changing the usage log without changing the matching sum changes
nothing in a computed row. -/
theorem remainingRow_congr (U V : List UsageRecord) (mid : Int)
    (m : PurchaseRecord) (h : totalUsed U mid = totalUsed V mid) :
    remainingRow U mid m = remainingRow V mid m := by
  unfold remainingRow
  rw [h]

/-- C10: a usage record whose Material_ID matches no purchase position
(negative or at least the purchase-log length) is silently ignored:
inserting it anywhere in the usage log leaves
calculate_remaining_materials unchanged, and the output always has
exactly one row per purchase record with Material_ID equal to that
record's position. -/
theorem C10_orphans_ignored (M : List PurchaseRecord)
    (U1 U2 : List UsageRecord) (u : UsageRecord)
    (h : u.materialId < 0 ∨ (M.length : Int) ≤ u.materialId) :
    calculate_remaining_materials M (U1 ++ u :: U2) =
      calculate_remaining_materials M (U1 ++ U2) ∧
    (calculate_remaining_materials M (U1 ++ U2)).length = M.length ∧
    ∀ i, i < M.length →
      ((calculate_remaining_materials M (U1 ++ U2)).getD i default).materialId = (i : Int) := by
  refine ⟨?_, calculate_length M (U1 ++ U2), ?_⟩
  · apply List.ext_getElem
    · rw [calculate_length, calculate_length]
    · intro n h1 h2
      rw [calculate_length] at h1
      rw [← List.getD_eq_getElem (calculate_remaining_materials M (U1 ++ u :: U2)) default
            (by rw [calculate_length]; exact h1),
          ← List.getD_eq_getElem (calculate_remaining_materials M (U1 ++ U2)) default
            (by rw [calculate_length]; exact h1)]
      rw [calculate_getD M _ n h1 default default,
          calculate_getD M _ n h1 default default]
      apply remainingRow_congr
      rw [totalUsed_append, totalUsed_append, totalUsed_cons,
          if_neg (by omega), zero_add]
  · intro i hi
    rw [calculate_getD M _ i hi default default]
    rfl

/-- Witness for C10: one purchase, one orphan usage record at
Material_ID 5; the computation ignores it. -/
theorem C10_witness :
    ((sampleUsage 5 20240103 7).materialId < 0 ∨
      (([samplePurchase] : List PurchaseRecord).length : Int) ≤ (sampleUsage 5 20240103 7).materialId) ∧
    calculate_remaining_materials [samplePurchase] ([] ++ sampleUsage 5 20240103 7 :: []) =
      calculate_remaining_materials [samplePurchase] ([] ++ []) ∧
    (calculate_remaining_materials [samplePurchase] ([] ++ [])).length =
      ([samplePurchase] : List PurchaseRecord).length ∧
    (0 < ([samplePurchase] : List PurchaseRecord).length ∧
     ((calculate_remaining_materials [samplePurchase] ([] ++ [])).getD 0 default).materialId = ((0 : Nat) : Int)) :=
  ⟨by decide,
   (C10_orphans_ignored [samplePurchase] [] [] (sampleUsage 5 20240103 7) (by decide)).1,
   (C10_orphans_ignored [samplePurchase] [] [] (sampleUsage 5 20240103 7) (by decide)).2.1,
   by decide,
   (C10_orphans_ignored [samplePurchase] [] [] (sampleUsage 5 20240103 7) (by decide)).2.2 0 (by decide)⟩

/-- For an in-range id, delete_entry reports success and returns the
erased purchase log together with the renumbered usage log. -/
theorem delete_entry_in_range (M : List PurchaseRecord) (U : List UsageRecord)
    (k : Nat) (h : k < M.length) :
    delete_entry M U k =
      (DeleteResult.success
        ("Successfully deleted " ++ (M.get ⟨k, h⟩).materialName ++ " and its usage records"),
       M.eraseIdx k, renumberUsage U k) := by
  simp only [delete_entry]
  rw [dif_pos h]

/-- C3: deleting in-range purchase k removes exactly the usage records
whose Material_ID equals k, decrements by 1 the Material_ID of every
usage record whose Material_ID exceeds k while leaving every other
field unchanged, and thereby keeps Material_ID a valid index into the
shortened purchase log whenever it was valid before. -/
theorem C3_delete_renumbers_usage (M : List PurchaseRecord) (U : List UsageRecord)
    (k : Nat) (hk : k < M.length) :
    (delete_entry M U k).2.1.length = M.length - 1 ∧
    (delete_entry M U k).2.2.length =
      (U.filter (fun u => !(u.materialId == (k : Int)))).length ∧
    (∀ j, j < (delete_entry M U k).2.2.length →
      (delete_entry M U k).2.2.getD j default =
        (if ((U.filter (fun u => !(u.materialId == (k : Int)))).getD j default).materialId > (k : Int)
         then { (U.filter (fun u => !(u.materialId == (k : Int)))).getD j default with
                  materialId := ((U.filter (fun u => !(u.materialId == (k : Int)))).getD j default).materialId - 1 }
         else (U.filter (fun u => !(u.materialId == (k : Int)))).getD j default)) ∧
    ((∀ u ∈ U, 0 ≤ u.materialId ∧ u.materialId < (M.length : Int)) →
      ∀ v ∈ (delete_entry M U k).2.2, 0 ≤ v.materialId ∧ v.materialId < (M.length : Int) - 1) := by
  rw [delete_entry_in_range M U k hk]
  refine ⟨?_, ?_, ?_, ?_⟩
  · show (M.eraseIdx k).length = M.length - 1
    rw [List.length_eraseIdx]
    simp [hk]
  · show (renumberUsage U k).length = _
    simp [renumberUsage]
  · intro j hj
    have hjF : j < (U.filter (fun u => !(u.materialId == (k : Int)))).length := by
      simpa [renumberUsage] using hj
    show (renumberUsage U k).getD j default = _
    have hj2 : j < (renumberUsage U k).length := hj
    rw [List.getD_eq_getElem _ _ hj2]
    simp only [renumberUsage, List.getElem_map]
    rw [← List.getD_eq_getElem (U.filter (fun u => !(u.materialId == (k : Int)))) default hjF]
  · intro hinv v hv
    have hv2 : v ∈ renumberUsage U k := hv
    simp only [renumberUsage, List.mem_map, List.mem_filter] at hv2
    obtain ⟨u, ⟨huU, hpred⟩, rfl⟩ := hv2
    have hne : u.materialId ≠ (k : Int) := by simpa using hpred
    obtain ⟨h0, hlen⟩ := hinv u huU
    by_cases h2 : u.materialId > (k : Int)
    · rw [if_pos h2]
      refine ⟨?_, ?_⟩ <;> rw [update_materialId] <;> omega
    · rw [if_neg h2]
      exact ⟨h0, by omega⟩

/-- Witness for C3: two identical purchases, one usage at id 0 and one
at id 1; deleting purchase 0 drops the first usage record and moves
the second to id 0. -/
theorem C3_witness :
    0 < ([samplePurchase, samplePurchase] : List PurchaseRecord).length ∧
    (delete_entry [samplePurchase, samplePurchase]
        [sampleUsage 0 20240102 5, sampleUsage 1 20240103 7] 0).2.1.length =
      ([samplePurchase, samplePurchase] : List PurchaseRecord).length - 1 ∧
    (delete_entry [samplePurchase, samplePurchase]
        [sampleUsage 0 20240102 5, sampleUsage 1 20240103 7] 0).2.2.length =
      (([sampleUsage 0 20240102 5, sampleUsage 1 20240103 7] : List UsageRecord).filter
        (fun u => !(u.materialId == ((0 : Nat) : Int)))).length ∧
    (0 < (delete_entry [samplePurchase, samplePurchase]
        [sampleUsage 0 20240102 5, sampleUsage 1 20240103 7] 0).2.2.length ∧
     (delete_entry [samplePurchase, samplePurchase]
        [sampleUsage 0 20240102 5, sampleUsage 1 20240103 7] 0).2.2.getD 0 default =
       (if ((([sampleUsage 0 20240102 5, sampleUsage 1 20240103 7] : List UsageRecord).filter
              (fun u => !(u.materialId == ((0 : Nat) : Int)))).getD 0 default).materialId > ((0 : Nat) : Int)
        then { (([sampleUsage 0 20240102 5, sampleUsage 1 20240103 7] : List UsageRecord).filter
                 (fun u => !(u.materialId == ((0 : Nat) : Int)))).getD 0 default with
                 materialId := ((([sampleUsage 0 20240102 5, sampleUsage 1 20240103 7] : List UsageRecord).filter
                   (fun u => !(u.materialId == ((0 : Nat) : Int)))).getD 0 default).materialId - 1 }
        else (([sampleUsage 0 20240102 5, sampleUsage 1 20240103 7] : List UsageRecord).filter
               (fun u => !(u.materialId == ((0 : Nat) : Int)))).getD 0 default)) :=
  ⟨by decide,
   (C3_delete_renumbers_usage [samplePurchase, samplePurchase]
     [sampleUsage 0 20240102 5, sampleUsage 1 20240103 7] 0 (by decide)).1,
   (C3_delete_renumbers_usage [samplePurchase, samplePurchase]
     [sampleUsage 0 20240102 5, sampleUsage 1 20240103 7] 0 (by decide)).2.1,
   by decide,
   (C3_delete_renumbers_usage [samplePurchase, samplePurchase]
     [sampleUsage 0 20240102 5, sampleUsage 1 20240103 7] 0 (by decide)).2.2.1 0 (by decide)⟩

/-- Original_Quantity of a computed row is the purchase's quantity. -/
theorem remainingRow_originalQuantity (U : List UsageRecord) (mid : Int)
    (m : PurchaseRecord) : (remainingRow U mid m).originalQuantity = m.quantity := rfl

/-- C6: after deleting in-range purchase k with its renumbering, the
recomputed remaining-inventory state is that of a history in which
purchase k was never inserted: the row at any position j carries
Material_ID j, the purchase fields of the record that sat at position
j (below k) or j+1 (at or above k) of the original log, and aggregates
the original usage of that same purchase; in particular a usage record
originally at Material_ID k+1 aggregates against the purchase now at
position k. -/
theorem C6_delete_matches_never_inserted (M : List PurchaseRecord)
    (U : List UsageRecord) (k j : Nat) (hk : k < M.length)
    (hj : j + 1 < M.length) :
    (calculate_remaining_materials (delete_entry M U k).2.1 (delete_entry M U k).2.2).length =
      M.length - 1 ∧
    ((calculate_remaining_materials (delete_entry M U k).2.1 (delete_entry M U k).2.2).getD j default).materialId =
      (j : Int) ∧
    ((calculate_remaining_materials (delete_entry M U k).2.1 (delete_entry M U k).2.2).getD j default).usedQuantity =
      totalUsed U (((if j < k then j else j + 1 : Nat) : Int)) ∧
    ((calculate_remaining_materials (delete_entry M U k).2.1 (delete_entry M U k).2.2).getD j default).originalQuantity =
      (M.getD (if j < k then j else j + 1) default).quantity ∧
    ((calculate_remaining_materials (delete_entry M U k).2.1 (delete_entry M U k).2.2).getD j default).remainingQuantity =
      (M.getD (if j < k then j else j + 1) default).quantity -
        totalUsed U (((if j < k then j else j + 1 : Nat) : Int)) := by
  rw [delete_entry_in_range M U k hk]
  dsimp only
  have hlen : (M.eraseIdx k).length = M.length - 1 := by
    rw [List.length_eraseIdx]
    simp [hk]
  have hjE : j < (M.eraseIdx k).length := by omega
  have hcalc : (calculate_remaining_materials (M.eraseIdx k) (renumberUsage U k)).getD j default =
      remainingRow (renumberUsage U k) (j : Int) ((M.eraseIdx k).getD j default) :=
    calculate_getD _ _ j hjE default default
  refine ⟨?_, ?_, ?_, ?_, ?_⟩
  · rw [calculate_length, hlen]
  · rw [hcalc, remainingRow_materialId]
  · rw [hcalc, remainingRow_usedQuantity, totalUsed_renumber U k j]
  · rw [hcalc, remainingRow_originalQuantity, eraseIdx_getD M k j hk hj default]
  · rw [hcalc, remainingRow_remainingQuantity, totalUsed_renumber U k j,
        eraseIdx_getD M k j hk hj default]

/-- Witness for C6: two purchases, a usage record at Material_ID 1;
after deleting purchase 0, row 0 reports the former purchase 1 with
its usage aggregated. -/
theorem C6_witness :
    0 < ([samplePurchase, { samplePurchase with quantity := 50 }] : List PurchaseRecord).length ∧
    (calculate_remaining_materials
        (delete_entry [samplePurchase, { samplePurchase with quantity := 50 }] [sampleUsage 1 20240103 7] 0).2.1
        (delete_entry [samplePurchase, { samplePurchase with quantity := 50 }] [sampleUsage 1 20240103 7] 0).2.2).length =
      ([samplePurchase, { samplePurchase with quantity := 50 }] : List PurchaseRecord).length - 1 ∧
    ((calculate_remaining_materials
        (delete_entry [samplePurchase, { samplePurchase with quantity := 50 }] [sampleUsage 1 20240103 7] 0).2.1
        (delete_entry [samplePurchase, { samplePurchase with quantity := 50 }] [sampleUsage 1 20240103 7] 0).2.2).getD 0 default).materialId =
      ((0 : Nat) : Int) ∧
    ((calculate_remaining_materials
        (delete_entry [samplePurchase, { samplePurchase with quantity := 50 }] [sampleUsage 1 20240103 7] 0).2.1
        (delete_entry [samplePurchase, { samplePurchase with quantity := 50 }] [sampleUsage 1 20240103 7] 0).2.2).getD 0 default).usedQuantity =
      totalUsed [sampleUsage 1 20240103 7] (((if 0 < 0 then 0 else 0 + 1 : Nat) : Int)) ∧
    ((calculate_remaining_materials
        (delete_entry [samplePurchase, { samplePurchase with quantity := 50 }] [sampleUsage 1 20240103 7] 0).2.1
        (delete_entry [samplePurchase, { samplePurchase with quantity := 50 }] [sampleUsage 1 20240103 7] 0).2.2).getD 0 default).originalQuantity =
      (([samplePurchase, { samplePurchase with quantity := 50 }] : List PurchaseRecord).getD
        (if 0 < 0 then 0 else 0 + 1) default).quantity ∧
    ((calculate_remaining_materials
        (delete_entry [samplePurchase, { samplePurchase with quantity := 50 }] [sampleUsage 1 20240103 7] 0).2.1
        (delete_entry [samplePurchase, { samplePurchase with quantity := 50 }] [sampleUsage 1 20240103 7] 0).2.2).getD 0 default).remainingQuantity =
      (([samplePurchase, { samplePurchase with quantity := 50 }] : List PurchaseRecord).getD
        (if 0 < 0 then 0 else 0 + 1) default).quantity -
        totalUsed [sampleUsage 1 20240103 7] (((if 0 < 0 then 0 else 0 + 1 : Nat) : Int)) :=
  ⟨by decide,
   (C6_delete_matches_never_inserted [samplePurchase, { samplePurchase with quantity := 50 }]
     [sampleUsage 1 20240103 7] 0 0 (by decide) (by decide)).1,
   (C6_delete_matches_never_inserted [samplePurchase, { samplePurchase with quantity := 50 }]
     [sampleUsage 1 20240103 7] 0 0 (by decide) (by decide)).2.1,
   (C6_delete_matches_never_inserted [samplePurchase, { samplePurchase with quantity := 50 }]
     [sampleUsage 1 20240103 7] 0 0 (by decide) (by decide)).2.2.1,
   (C6_delete_matches_never_inserted [samplePurchase, { samplePurchase with quantity := 50 }]
     [sampleUsage 1 20240103 7] 0 0 (by decide) (by decide)).2.2.2.1,
   (C6_delete_matches_never_inserted [samplePurchase, { samplePurchase with quantity := 50 }]
     [sampleUsage 1 20240103 7] 0 0 (by decide) (by decide)).2.2.2.2⟩

/-- C2 (code evaluation at the claim's scenario): with usage events on
2024-01-01 (qty 10) and 2024-01-05 (qty 5) against original quantity
100, usage_history sorts descending, accumulates the running totals in
that descending order, and reverses, so the page shows the 01-01 event
first with cumulative 15 and remaining 85, then the 01-05 event with
cumulative 5 and remaining 95 — not the claimed latest-first page with
ascending prefix sums [10, 15]. -/
theorem C2_usage_history_eval :
    usage_history [samplePurchase]
        [sampleUsage 0 20240101 10, sampleUsage 0 20240105 5] 0 =
      HistoryResult.page
        [{ usageDate := 20240101, usedQuantity := 10, unit := "bags",
           usagePurpose := "slab", usedBy := "crew", notes := "",
           cumulativeUsed := 15, remainingAfter := 85 },
         { usageDate := 20240105, usedQuantity := 5, unit := "bags",
           usagePurpose := "slab", usedBy := "crew", notes := "",
           cumulativeUsed := 5, remainingAfter := 95 }] ∧
    usage_history [samplePurchase]
        [sampleUsage 0 20240101 10, sampleUsage 0 20240105 5] 0 ≠
      HistoryResult.page
        [{ usageDate := 20240105, usedQuantity := 5, unit := "bags",
           usagePurpose := "slab", usedBy := "crew", notes := "",
           cumulativeUsed := 15, remainingAfter := 85 },
         { usageDate := 20240101, usedQuantity := 10, unit := "bags",
           usagePurpose := "slab", usedBy := "crew", notes := "",
           cumulativeUsed := 10, remainingAfter := 90 }] := by
  have heval : usage_history [samplePurchase]
      [sampleUsage 0 20240101 10, sampleUsage 0 20240105 5] 0 =
      HistoryResult.page
        [{ usageDate := 20240101, usedQuantity := 10, unit := "bags",
           usagePurpose := "slab", usedBy := "crew", notes := "",
           cumulativeUsed := 15, remainingAfter := 85 },
         { usageDate := 20240105, usedQuantity := 5, unit := "bags",
           usagePurpose := "slab", usedBy := "crew", notes := "",
           cumulativeUsed := 5, remainingAfter := 95 }] := by
    norm_num [usage_history, sortByDateDesc, insertByDateDesc, runningTotals,
      samplePurchase, sampleUsage]
  refine ⟨heval, ?_⟩
  rw [heval]
  intro hcon
  simp only [HistoryResult.page.injEq, List.cons.injEq, HistoryRow.mk.injEq] at hcon
  omega
